import Mathlib

/-!
Shallow embedding of the MCP-Scooter tray supervisor
(`desktop/src-tauri/src/lib.rs`): the status data model, the tray-menu
renderer `build_tray_menu`, the polling loop's `status_changed` diff and
`icon_name` selection, the backend process cleanup `kill_backend`, and the
restart menu handler. Theorems below settle the spec's claims about these
operations.
-/

/-- `ToolStatus` struct: `{ name: String, status: String }`. -/
structure ToolStatus where
  name : String
  status : String
deriving DecidableEq, Repr

/-- `ProfileStatus` struct. Rust `active_tools: i32` is embedded as `Int`. -/
structure ProfileStatus where
  id : String
  running : Bool
  active_tools : Int
  tool_status : Option (List ToolStatus)
deriving DecidableEq, Repr

/-- `AppStatus` struct. Rust `u16` ports are embedded as `Nat`
(only compared and printed, never subject to overflow here). -/
structure AppStatus where
  gateway_running : Bool
  control_port : Nat
  mcp_port : Nat
  active_profile_id : String
  profiles : List ProfileStatus
deriving DecidableEq, Repr

/-- One entry of the rendered tray menu: a `MenuItem::with_id(app, id, text,
enabled, ..)` call becomes `item id text enabled`; a
`PredefinedMenuItem::separator` becomes `separator`. -/
inductive MenuEntry where
  | item (id : String) (text : String) (enabled : Bool)
  | separator
deriving DecidableEq, Repr

/-- The status glyph chosen for a tool line, from the `match tool.status.as_str()`
in `build_tray_menu`: `"ok"`→🟢, `"idle"`→⚪, `"warning"`→🟡, anything else→🔴. -/
def tool_glyph (status : String) : String :=
  match status with
  | "ok" => "🟢"
  | "idle" => "⚪"
  | "warning" => "🟡"
  | _ => "🔴"

/-- The menu entries one profile contributes inside the `for p in &s.profiles`
loop of `build_tray_menu`: a disabled profile-label line (marked `●` when the
profile is the active one) followed by one enabled line per tool, but only when
the profile is `running` and its (defaulted) tool list is non-empty; otherwise
nothing. -/
def profile_entries (active_profile_id : String) (p : ProfileStatus) : List MenuEntry :=
  let tools := p.tool_status.getD []
  if p.running && !tools.isEmpty then
    MenuEntry.item ("profile_" ++ p.id)
        (if p.id == active_profile_id then "● Profile: " ++ p.id else "  Profile: " ++ p.id)
        false ::
      tools.map fun tool =>
        MenuEntry.item ("tool_" ++ tool.name)
          ("    " ++ tool_glyph tool.status ++ " " ++ tool.name) true
  else []

/-- The loop's `has_tools` accumulator: it ends up `true` exactly when some
profile passed the `p.running && !tools.is_empty()` test. -/
def has_tools (s : AppStatus) : Bool :=
  s.profiles.any fun p => p.running && !(p.tool_status.getD []).isEmpty

/-- `build_tray_menu`, as the list of menu entries pushed onto `items`
(widget-toolkit plumbing dropped; entry order, ids, texts and enabled flags
preserved). -/
def build_tray_menu (status : Option AppStatus) : List MenuEntry :=
  (match status with
   | some s =>
      [MenuEntry.item "status_header"
          ("Gateway: " ++ (if s.gateway_running then "Running" else "Stopped") ++
            " (Port " ++ toString s.mcp_port ++ ")") false,
       MenuEntry.separator] ++
      (if s.active_profile_id ≠ "" then
        [MenuEntry.item "active_profile_header"
            ("Active Profile: " ++ s.active_profile_id) false,
         MenuEntry.separator]
       else []) ++
      (s.profiles.map (profile_entries s.active_profile_id)).flatten ++
      (if has_tools s then [] else [MenuEntry.item "no_tools" "No tools enabled" false]) ++
      [MenuEntry.separator,
       MenuEntry.item "restart" "↻ Restart Gateway" true,
       MenuEntry.separator]
   | none =>
      [MenuEntry.item "gateway_status" "Connecting to Gateway..." false,
       MenuEntry.separator]) ++
  [MenuEntry.item "show" "Open MCP Scooter Dashboard" true,
   MenuEntry.item "quit" "Quit MCP Scooter" true]

/-- The polling loop's `status_changed` computation: first argument is the
freshly polled `status`, second the retained `last_status`, mirroring the Rust
`match (&status, &last_status)`. -/
def status_changed (status last_status : Option AppStatus) : Bool :=
  match status, last_status with
  | some s, some ls =>
      s.gateway_running != ls.gateway_running ||
      s.active_profile_id != ls.active_profile_id ||
      s.profiles.length != ls.profiles.length ||
      s.profiles.any fun p =>
        ((ls.profiles.find? fun lp => lp.id == p.id).map
          fun lp => lp.active_tools != p.active_tools || lp.tool_status != p.tool_status).getD true
  | none, none => false
  | _, _ => true

/-- The polling loop's `icon_name` selection. -/
def icon_name (status : Option AppStatus) : String :=
  match status with
  | some s =>
      if !s.gateway_running then "tray-error.png"
      else if s.profiles.any fun p =>
          (p.tool_status.getD []).any fun ts => ts.status != "ok" then "tray-warning.png"
      else "tray-ok.png"
  | none => "tray-error.png"

/-- A spawned backend child process (`std::process::Child`), identified by its
OS pid; the embedding never inspects it beyond identity. -/
structure Child where
  pid : Nat
deriving DecidableEq, Repr

/-- `kill_backend`: takes the current content of the `BACKEND_PROCESS` slot and
returns `(new slot content, child that was killed-and-waited, if any)`.
If a child is held, `child.kill()` and `child.wait()` are invoked and their
results discarded (the Rust `let _ = ...`), modelled by the ignored `killRes`
and `waitRes` outcomes; `guard.take()` leaves the slot empty either way. The
mutex acquisition is modelled as succeeding (the sequential embedding has no
lock poisoning). -/
def kill_backend (killRes waitRes : Child → Except String Unit) :
    Option Child → Option Child × Option Child
  | some child =>
      let _ := killRes child
      let _ := waitRes child
      (none, some child)
  | none => (none, none)

/-- The steps of the `"restart"` menu handler's async block, in source order. -/
inductive RestartStep where
  | shutdownPost
  | graceDelay
  | killStep
  | spawnStep
  | reloadWindow
deriving DecidableEq, Repr

/-- The `"restart"` menu handler: (1) best-effort `POST /api/shutdown` whose
outcome `shutdownRes` is discarded, (2) fixed grace sleep, (3) `kill_backend()`,
(4) `spawn_backend()` whose success stores the fresh child in the slot and whose
failure only logs, (5) frontend reload. Returns the final slot content and the
trace of steps executed. -/
def restart_handler (shutdownRes : Except String Unit)
    (killRes waitRes : Child → Except String Unit)
    (spawnRes : Except String Child) (slot : Option Child) :
    Option Child × List RestartStep :=
  let _ := shutdownRes
  let afterKill := (kill_backend killRes waitRes slot).1
  let afterSpawn :=
    match spawnRes with
    | .ok child => some child
    | .error _ => afterKill
  (afterSpawn,
   [.shutdownPost, .graceDelay, .killStep, .spawnStep, .reloadWindow])

/-- The observable outcome of one `client.get(.../api/status).send()` cycle:
either the transport errored, or a response arrived with a success flag
(`resp.status().is_success()`) and a body text (`none` when `resp.text()`
itself failed). -/
inductive HttpFetchResult where
  | sendErr
  | resp (isSuccess : Bool) (text : Option String)
deriving DecidableEq, Repr

/-- One iteration of the polling loop's `status` computation. `parse` stands
for `serde_json::from_str::<AppStatus>`, kept abstract: a successful parse
yields `some`, a schema failure `none`. -/
def poll_status (parse : String → Option AppStatus) :
    HttpFetchResult → Option AppStatus
  | .sendErr => none
  | .resp isSuccess text =>
      if isSuccess then
        match text with
        | some t => parse t
        | none => none
      else none

/-! ## Fixtures and helper notions used by the theorems -/

/-- Does a menu entry render a profile-label line (its id is `"profile_" ++ ...`)? -/
def is_profile_line : MenuEntry → Bool
  | .item i _ _ => "profile_".toList.isPrefixOf i.toList
  | .separator => false

/-- Does a menu entry render a tool line (its id is `"tool_" ++ ...`)? -/
def is_tool_line : MenuEntry → Bool
  | .item i _ _ => "tool_".toList.isPrefixOf i.toList
  | .separator => false

/-- The §8 test snapshot: one running profile with tools
`[{name:"a",status:"ok"}, {name:"b",status:"warning"}]`. -/
def sample_status : AppStatus :=
  { gateway_running := true, control_port := 6200, mcp_port := 6200,
    active_profile_id := "p1",
    profiles := [{ id := "p1", running := true, active_tools := 2,
                   tool_status := some [⟨"a", "ok"⟩, ⟨"b", "warning"⟩] }] }

/-- A malformed snapshot whose two profiles share the id `"a"` but carry
different `active_tools` counts. -/
def dup_id_status : AppStatus :=
  { gateway_running := true, control_port := 6200, mcp_port := 6200,
    active_profile_id := "",
    profiles := [{ id := "a", running := true, active_tools := 1, tool_status := none },
                 { id := "a", running := true, active_tools := 2, tool_status := none }] }

/-- Old snapshot for the removed-profile scenario: profiles `"a"` and `"b"`. -/
def drop_old_status : AppStatus :=
  { gateway_running := true, control_port := 6200, mcp_port := 6200,
    active_profile_id := "",
    profiles := [{ id := "a", running := true, active_tools := 1, tool_status := none },
                 { id := "a", running := true, active_tools := 1, tool_status := none },
                 { id := "b", running := true, active_tools := 1, tool_status := none }] }

/-- New snapshot for the removed-profile scenario: `"b"` is gone, but a
duplicate of `"a"` keeps the profile count at three. -/
def drop_new_status : AppStatus :=
  { gateway_running := true, control_port := 6200, mcp_port := 6200,
    active_profile_id := "",
    profiles := [{ id := "a", running := true, active_tools := 1, tool_status := none },
                 { id := "a", running := true, active_tools := 1, tool_status := none },
                 { id := "a", running := true, active_tools := 1, tool_status := none }] }

/-- Old snapshot for the `toolStatus`-absent-versus-empty scenario: the second
profile (sharing id `"p"` with the first) has `tool_status = none`. -/
def tsnone_old_status : AppStatus :=
  { gateway_running := true, control_port := 6200, mcp_port := 6200,
    active_profile_id := "",
    profiles := [{ id := "p", running := true, active_tools := 0, tool_status := some [] },
                 { id := "p", running := true, active_tools := 0, tool_status := none }] }

/-- New snapshot for that scenario: identical except the second profile now has
`tool_status = some []`. -/
def tsnone_new_status : AppStatus :=
  { gateway_running := true, control_port := 6200, mcp_port := 6200,
    active_profile_id := "",
    profiles := [{ id := "p", running := true, active_tools := 0, tool_status := some [] },
                 { id := "p", running := true, active_tools := 0, tool_status := some [] }] }

/-- The reload/restart action entry of the rendered menu. -/
def restart_item : MenuEntry := .item "restart" "↻ Restart Gateway" true

/-- The fixed show-dashboard entry of the rendered menu. -/
def show_item : MenuEntry := .item "show" "Open MCP Scooter Dashboard" true

/-- The fixed quit entry of the rendered menu. -/
def quit_item : MenuEntry := .item "quit" "Quit MCP Scooter" true

/-- A parser outcome that rejects every body (schema mismatch on all inputs). -/
def reject_parse : String → Option AppStatus := fun _ => none

/-- A `child.kill()` outcome that always errors. -/
def kill_err : Child → Except String Unit := fun _ => Except.error "kill failed"

/-- A `child.wait()` outcome that always errors. -/
def wait_err : Child → Except String Unit := fun _ => Except.error "wait failed"

/-- In a list of profiles with pairwise-distinct ids, looking up a member
profile by its own id finds exactly that profile. -/
theorem find?_id_self_of_nodup (p : ProfileStatus) :
    ∀ l : List ProfileStatus, p ∈ l → (l.map ProfileStatus.id).Nodup →
      (l.find? fun lp => lp.id == p.id) = some p := by
  intro l
  induction l with
  | nil => intro h _; exact absurd h (List.not_mem_nil p)
  | cons x xs ih =>
      intro hmem hnd
      rw [List.map_cons, List.nodup_cons] at hnd
      by_cases hx : (x.id == p.id) = true
      · have hxp : x.id = p.id := by simpa using hx
        have hpx : p = x := by
          rcases List.mem_cons.mp hmem with h | h
          · exact h
          · have hin : p.id ∈ xs.map ProfileStatus.id := List.mem_map_of_mem _ h
            rw [← hxp] at hin
            exact absurd hin hnd.1
        simp [List.find?_cons, hx, hpx]
      · have hpx : p ≠ x := fun he => hx (by simp [he])
        have hmem' : p ∈ xs := by
          rcases List.mem_cons.mp hmem with h | h
          · exact absurd h hpx
          · exact h
        rw [List.find?_cons_of_neg _ (by simpa using hx)]
        exact ih hmem' hnd.2

/-- C2 (counterexample): diffing the *same* snapshot against itself is reported
as changed when two profiles share an id — for `dup_id_status`, whose two
profiles both carry id `"a"`, `status_changed` on the identical pair is `true`,
so "for every snapshot s, diffing (present(s), present(s)) reports unchanged"
fails on the code. -/
theorem status_changed_self_dup_id :
    status_changed (some dup_id_status) (some dup_id_status) = true := by decide

/-- C2 (amended): for every snapshot whose profile ids are pairwise distinct
(the data model's stated invariant), diffing the pair
`(present(s), present(s))` — the same value on both sides — reports
unchanged. -/
theorem status_changed_refl_of_nodup (s : AppStatus)
    (h : (s.profiles.map ProfileStatus.id).Nodup) :
    status_changed (some s) (some s) = false := by
  simp only [status_changed, bne_self_eq_false, Bool.false_or]
  rw [List.any_eq_false]
  intro p hp
  rw [find?_id_self_of_nodup p s.profiles hp h]
  simp

/-- Witness for the amended C2 theorem at the concrete snapshot
`sample_status`, whose single profile trivially has distinct ids. -/
theorem status_changed_refl_of_nodup_at_sample :
    status_changed (some sample_status) (some sample_status) = false :=
  status_changed_refl_of_nodup sample_status (by decide)

/-- C3: a profile id occurring in the old snapshot can be entirely absent from
the new snapshot while `status_changed` still reports unchanged: the diff only
walks new-side profiles, so `drop_old_status`'s profile `"b"` disappearing in
`drop_new_status` (masked by a duplicated `"a"` keeping the count equal) goes
undetected. -/
theorem removed_profile_undetected :
    ∃ oldS newS : AppStatus,
      (∃ p ∈ oldS.profiles, ∀ q ∈ newS.profiles, q.id ≠ p.id) ∧
      status_changed (some newS) (some oldS) = false :=
  ⟨drop_old_status, drop_new_status, by decide⟩

/-- C10 (counterexample): `tsnone_old_status` and `tsnone_new_status` differ
only in the second profile's `tool_status` being `none` versus `some []`, yet
`status_changed` reports *unchanged*: the changed profile's id-lookup lands on
the earlier duplicate of id `"p"`, which compares equal. The render and icon
conjuncts of the claim do hold at this pair. -/
theorem tool_status_none_vs_empty_dup_unchanged :
    status_changed (some tsnone_new_status) (some tsnone_old_status) = false ∧
    build_tray_menu (some tsnone_old_status) = build_tray_menu (some tsnone_new_status) ∧
    icon_name (some tsnone_old_status) = icon_name (some tsnone_new_status) := by
  decide

/-- C10 (amended): for two snapshots that differ only in one profile's
`tool_status` being `none` versus `some []`, and in which no earlier profile
shares that profile's id (so the id-lookup finds the altered profile itself),
`status_changed` reports changed, even though both menu rendering and
icon-class selection treat the two snapshots identically. -/
theorem status_changed_none_vs_empty (gw : Bool) (cp mp : Nat) (apid : String)
    (pre post : List ProfileStatus) (p : ProfileStatus)
    (hnone : p.tool_status = none)
    (hpre : ∀ q ∈ pre, q.id ≠ p.id) :
    status_changed
        (some ⟨gw, cp, mp, apid, pre ++ { p with tool_status := some [] } :: post⟩)
        (some ⟨gw, cp, mp, apid, pre ++ p :: post⟩) = true ∧
    build_tray_menu (some ⟨gw, cp, mp, apid, pre ++ p :: post⟩) =
      build_tray_menu (some ⟨gw, cp, mp, apid, pre ++ { p with tool_status := some [] } :: post⟩) ∧
    icon_name (some ⟨gw, cp, mp, apid, pre ++ p :: post⟩) =
      icon_name (some ⟨gw, cp, mp, apid, pre ++ { p with tool_status := some [] } :: post⟩) := by
  refine ⟨?_, ?_, ?_⟩
  · simp only [status_changed]
    have hfind : ((pre ++ p :: post).find? fun lp =>
        lp.id == (({ p with tool_status := some [] } : ProfileStatus)).id) = some p := by
      rw [List.find?_append]
      have h1 : (pre.find? fun lp =>
          lp.id == (({ p with tool_status := some [] } : ProfileStatus)).id) = none :=
        List.find?_eq_none.mpr fun q hq => by simpa using hpre q hq
      rw [h1]
      simp [List.find?_cons]
    have hany : ((pre ++ { p with tool_status := some [] } :: post).any fun q =>
        (((pre ++ p :: post).find? fun lp => lp.id == q.id).map fun lp =>
          lp.active_tools != q.active_tools || lp.tool_status != q.tool_status).getD true)
          = true := by
      refine List.any_eq_true.mpr
        ⟨{ p with tool_status := some [] }, List.mem_append_right _ (List.mem_cons_self _ _), ?_⟩
      rw [hfind]
      simp [hnone]
    rw [hany]
    simp
  · simp [build_tray_menu, has_tools, profile_entries, hnone, List.any_append, List.map_append]
  · simp [icon_name, hnone, List.any_append]

/-- Witness for the amended C10 theorem: a one-profile snapshot whose
`tool_status` flips from `none` to `some []` is reported as changed. -/
theorem status_changed_none_vs_empty_at_sample :
    status_changed
      (some ⟨true, 6200, 6200, "",
        [{ id := "p", running := true, active_tools := 0, tool_status := some [] }]⟩)
      (some ⟨true, 6200, 6200, "",
        [{ id := "p", running := true, active_tools := 0, tool_status := none }]⟩) = true :=
  (status_changed_none_vs_empty true 6200 6200 "" [] []
    { id := "p", running := true, active_tools := 0, tool_status := none }
    rfl (by simp)).1

/-- Per-profile reading of the diff's counterpart check: the boolean the `any`
evaluates for a new-side profile `p` is `true` exactly when `p` has no
id-counterpart in the old profile list, or its first id-counterpart differs in
`active_tools` or `tool_status`. -/
theorem counterpart_check_iff (old : List ProfileStatus) (p : ProfileStatus) :
    (((old.find? fun lp => lp.id == p.id).map fun lp =>
        lp.active_tools != p.active_tools || lp.tool_status != p.tool_status).getD true) = true ↔
      (∀ lp ∈ old, lp.id ≠ p.id) ∨
      ∃ lp, (old.find? fun lp => lp.id == p.id) = some lp ∧
        (lp.active_tools ≠ p.active_tools ∨ lp.tool_status ≠ p.tool_status) := by
  cases hfind : old.find? fun lp => lp.id == p.id with
  | none =>
      simp only [hfind, Option.map_none', Option.getD_none]
      constructor
      · intro _
        left
        intro lp hlp
        simpa using List.find?_eq_none.mp hfind lp hlp
      · intro _
        trivial
  | some lp =>
      simp only [hfind, Option.map_some', Option.getD_some]
      constructor
      · intro hg
        right
        exact ⟨lp, rfl, by simpa [Bool.or_eq_true, bne_iff_ne] using hg⟩
      · rintro (hall | ⟨lp', heq, hd⟩)
        · have hmem := List.mem_of_find?_eq_some hfind
          have hid : lp.id = p.id := by simpa using List.find?_some hfind
          exact absurd hid (hall lp hmem)
        · cases heq
          simpa [Bool.or_eq_true, bne_iff_ne] using hd

/-- C1: with both snapshots present, `status_changed` reports changed if and
only if `gateway_running` differs, or `active_profile_id` differs, or the
number of profiles differs, or some new-side profile has no counterpart
(matched by id) in the old snapshot, or some new-side profile's counterpart
differs in `active_tools` or `tool_status`. -/
theorem status_changed_both_present_iff (oldS newS : AppStatus) :
    status_changed (some newS) (some oldS) = true ↔
      newS.gateway_running ≠ oldS.gateway_running ∨
      newS.active_profile_id ≠ oldS.active_profile_id ∨
      newS.profiles.length ≠ oldS.profiles.length ∨
      ∃ p ∈ newS.profiles,
        (∀ lp ∈ oldS.profiles, lp.id ≠ p.id) ∨
        ∃ lp, (oldS.profiles.find? fun lp => lp.id == p.id) = some lp ∧
          (lp.active_tools ≠ p.active_tools ∨ lp.tool_status ≠ p.tool_status) := by
  simp only [status_changed, Bool.or_eq_true, bne_iff_ne, List.any_eq_true,
    counterpart_check_iff]
  rw [or_assoc, or_assoc]

/-- C4 (counterexample): for the absent input, the rendered menu does *not*
terminate with a reload/restart entry — in fact it contains no restart entry
at all — so "for every input the menu terminates with a reload/restart entry,
then show-dashboard, then quit" fails at `none`. -/
theorem build_tray_menu_none_no_restart :
    ¬ ∃ pre, build_tray_menu none =
        pre ++ [restart_item, MenuEntry.separator, show_item, quit_item] := by
  rintro ⟨pre, h⟩
  have hmem : restart_item ∈ build_tray_menu none := by
    rw [h]
    simp
  exact (by decide : restart_item ∉ build_tray_menu none) hmem

/-- C4 (amended): for every *present* snapshot the rendered menu terminates
with the reload/restart action entry followed (after a separator) by the fixed
show-dashboard entry and the quit entry; for the absent input the menu is the
"connecting" line followed by the show-dashboard and quit entries, with no
reload/restart entry. -/
theorem build_tray_menu_tail :
    (∀ s : AppStatus, ∃ pre, build_tray_menu (some s) =
        pre ++ [restart_item, MenuEntry.separator, show_item, quit_item]) ∧
    build_tray_menu none =
      [MenuEntry.item "gateway_status" "Connecting to Gateway..." false,
       MenuEntry.separator, show_item, quit_item] := by
  constructor
  · intro s
    refine ⟨[MenuEntry.item "status_header"
          ("Gateway: " ++ (if s.gateway_running then "Running" else "Stopped") ++
            " (Port " ++ toString s.mcp_port ++ ")") false,
        MenuEntry.separator] ++
        (if s.active_profile_id ≠ "" then
          [MenuEntry.item "active_profile_header"
              ("Active Profile: " ++ s.active_profile_id) false,
           MenuEntry.separator]
         else []) ++
        (s.profiles.map (profile_entries s.active_profile_id)).flatten ++
        (if has_tools s then [] else [MenuEntry.item "no_tools" "No tools enabled" false]) ++
        [MenuEntry.separator], ?_⟩
    simp [build_tray_menu, restart_item, show_item, quit_item]
  · decide

/-- C5: icon-class selection is a total, deterministic function of the poll
result, evaluated in order: absent → error; present but gateway not running →
error regardless of tool statuses; present, running, and some tool across some
profile has status ≠ "ok" → warning; otherwise (all tools "ok") → ok. Exactly
one of the three (pairwise distinct) classes is always selected. -/
theorem icon_name_spec (st : Option AppStatus) :
    (icon_name st = "tray-error.png" ∨ icon_name st = "tray-warning.png" ∨
      icon_name st = "tray-ok.png") ∧
    (st = none → icon_name st = "tray-error.png") ∧
    (∀ s, st = some s → s.gateway_running = false → icon_name st = "tray-error.png") ∧
    (∀ s, st = some s → s.gateway_running = true →
      ((∃ p ∈ s.profiles, ∃ ts ∈ p.tool_status.getD [], ts.status ≠ "ok") →
        icon_name st = "tray-warning.png") ∧
      ((∀ p ∈ s.profiles, ∀ ts ∈ p.tool_status.getD [], ts.status = "ok") →
        icon_name st = "tray-ok.png")) := by
  cases st with
  | none => simp [icon_name]
  | some s =>
      have hwarn : (s.profiles.any fun p =>
          (p.tool_status.getD []).any fun ts => ts.status != "ok") = true ↔
          ∃ p ∈ s.profiles, ∃ ts ∈ p.tool_status.getD [], ts.status ≠ "ok" := by
        simp [List.any_eq_true, bne_iff_ne]
      refine ⟨?_, by simp, ?_, ?_⟩
      · by_cases hg : s.gateway_running
        · by_cases hw : (s.profiles.any fun p =>
              (p.tool_status.getD []).any fun ts => ts.status != "ok") = true
          · right; left; simp [icon_name, hg, hw]
          · right; right; simp [icon_name, hg, hw]
        · left; simp [icon_name, hg]
      · rintro s' heq hg
        cases heq
        simp [icon_name, hg]
      · rintro s' heq hg
        cases heq
        constructor
        · intro hex
          simp [icon_name, hg, hwarn.mpr hex]
        · intro hall
          have hw : (s.profiles.any fun p =>
              (p.tool_status.getD []).any fun ts => ts.status != "ok") = false := by
            rw [List.any_eq_false]
            intro p hp
            rw [Bool.not_eq_true, List.any_eq_false]
            intro ts hts
            simp [hall p hp ts hts]
          simp [icon_name, hg, hw]

/-- Witness for the icon-class theorem: at `sample_status` (gateway running,
one tool with status `"warning"`), the warning branch applies. -/
theorem icon_name_spec_at_sample :
    icon_name (some sample_status) = "tray-warning.png" :=
  ((icon_name_spec (some sample_status)).2.2.2 sample_status rfl rfl).1
    ⟨{ id := "p1", running := true, active_tools := 2,
       tool_status := some [⟨"a", "ok"⟩, ⟨"b", "warning"⟩] },
     by decide, ⟨"b", "warning"⟩, by decide, by decide⟩

/-- C6: for `sample_status` — one profile, `running = true`, tools
`[{name:"a",status:"ok"}, {name:"b",status:"warning"}]` — the icon class
resolves to warning, and the menu renders exactly one profile-label line and
exactly two tool lines, carrying the ok glyph 🟢 and the warning glyph 🟡
respectively. -/
theorem sample_status_render :
    icon_name (some sample_status) = "tray-warning.png" ∧
    ((build_tray_menu (some sample_status)).filter is_profile_line).length = 1 ∧
    (build_tray_menu (some sample_status)).filter is_tool_line =
      [MenuEntry.item "tool_a" ("    " ++ "🟢" ++ " " ++ "a") true,
       MenuEntry.item "tool_b" ("    " ++ "🟡" ++ " " ++ "b") true] := by
  decide

/-- C7: one poll cycle always yields a result (`poll_status` is total, so
nothing escapes the poller's boundary), and that result is `none` (absent) for
each failure mode — transport failure, non-success HTTP status whatever the
body, failure to read the body text, and a body that fails to parse — all of
which collapse to the same value `none`, indistinguishable for diffing. -/
theorem poll_status_failure_absent (parse : String → Option AppStatus) :
    poll_status parse .sendErr = none ∧
    (∀ text, poll_status parse (.resp false text) = none) ∧
    poll_status parse (.resp true none) = none ∧
    (∀ t, parse t = none → poll_status parse (.resp true (some t)) = none) := by
  refine ⟨rfl, fun text => rfl, rfl, fun t h => ?_⟩
  simp [poll_status, h]

/-- Witness for the poll-failure theorem: a parser that rejects everything
yields `none` on a successful HTTP 200 fetch of body `"not json"`. -/
theorem poll_status_failure_absent_at_sample :
    poll_status reject_parse (.resp true (some "not json")) = none :=
  (poll_status_failure_absent reject_parse).2.2.2 "not json" rfl

/-- C8: `kill_backend` is idempotent and total: with a handle held it kills and
waits on exactly that child while discarding the kill/wait outcomes (the result
does not depend on `killRes`/`waitRes`, so errors are swallowed and nothing
propagates); with no handle it is a no-op; after any call the slot is empty,
so a second back-to-back call (no process the second time) is the no-op. -/
theorem kill_backend_idempotent (killRes waitRes : Child → Except String Unit)
    (slot : Option Child) :
    (kill_backend killRes waitRes slot).1 = none ∧
    (∀ c, slot = some c → (kill_backend killRes waitRes slot).2 = some c) ∧
    (slot = none → kill_backend killRes waitRes slot = (none, none)) ∧
    kill_backend killRes waitRes (kill_backend killRes waitRes slot).1 = (none, none) ∧
    (∀ killRes2 waitRes2 : Child → Except String Unit,
      kill_backend killRes2 waitRes2 slot = kill_backend killRes waitRes slot) := by
  cases slot with
  | none =>
      refine ⟨rfl, ?_, fun _ => rfl, rfl, fun _ _ => rfl⟩
      intro c h
      exact Option.noConfusion h
  | some c =>
      refine ⟨rfl, ?_, ?_, rfl, fun _ _ => rfl⟩
      · intro c' h
        cases h
        rfl
      · intro h
        exact Option.noConfusion h

/-- Witness for the `kill_backend` theorem: killing child pid 7 with failing
kill/wait outcomes still empties the slot and reports the killed child; the
immediate second call is a no-op. -/
theorem kill_backend_idempotent_at_sample :
    (kill_backend kill_err wait_err (some ⟨7⟩)).2 = some ⟨7⟩ :=
  (kill_backend_idempotent kill_err wait_err (some ⟨7⟩)).2.1 ⟨7⟩ rfl

/-- C9: the restart handler always executes its steps in source order —
shutdown POST, grace delay, kill, spawn, frontend reload — whatever the
shutdown, kill/wait and spawn outcomes and whatever the slot held (no earlier
failure aborts the sequence, and the result ignores the shutdown outcome
entirely); a successful spawn always lands the fresh child in the slot — in
particular when no process was running — and a failed spawn leaves the slot
empty because the kill already cleared it. -/
theorem restart_handler_spec (shutdownRes : Except String Unit)
    (killRes waitRes : Child → Except String Unit)
    (spawnRes : Except String Child) (slot : Option Child) :
    (restart_handler shutdownRes killRes waitRes spawnRes slot).2 =
      [.shutdownPost, .graceDelay, .killStep, .spawnStep, .reloadWindow] ∧
    (∀ c, spawnRes = .ok c →
      (restart_handler shutdownRes killRes waitRes spawnRes slot).1 = some c) ∧
    (∀ e, spawnRes = .error e →
      (restart_handler shutdownRes killRes waitRes spawnRes slot).1 = none) ∧
    (∀ shutdownRes2 : Except String Unit,
      restart_handler shutdownRes2 killRes waitRes spawnRes slot =
        restart_handler shutdownRes killRes waitRes spawnRes slot) := by
  refine ⟨rfl, fun c h => ?_, fun e h => ?_, fun _ => rfl⟩
  · cases h
    rfl
  · cases h
    simp [restart_handler, kill_backend]
    cases slot <;> rfl

/-- Witness for the restart theorem: restarting with an empty slot, a failed
shutdown POST and failing kill/wait outcomes still ends with the freshly
spawned child pid 9 in the slot. -/
theorem restart_handler_spec_at_sample :
    (restart_handler (Except.error "connection refused") kill_err wait_err
        (Except.ok ⟨9⟩) none).1 = some ⟨9⟩ :=
  (restart_handler_spec (Except.error "connection refused") kill_err wait_err
    (Except.ok ⟨9⟩) none).2.1 ⟨9⟩ rfl
